import Mathlib

/-!
Shallow embedding of the AdVenture backend's match-generation core
(`gemini.js` and the `/api/ai/find-matches` handler of `server.js`,
with the `Match` schema of `models.js`), together with theorems about it.

External collaborators (the Gemini text-generation client and `JSON.parse`)
are modelled as explicit parameters; the MongoDB collections are modelled as
an explicit database state threaded through the handler.  Strings are Lean
`String`s; JavaScript `toLowerCase` is modelled by `toLowerStr`
(character-wise ASCII lowercasing, which agrees with JavaScript on all the
table keys and substrings the code compares against).
-/

namespace AdVenture

/-- The video attributes `gemini.js` reads from a video document
(`videoData.title`, `videoData.genre`, `videoData.tone`). -/
structure VideoData where
  title : String
  genre : String
  tone : String
deriving Repr, DecidableEq

/-- The campaign attributes `gemini.js` reads from a campaign document
(`productName`, `category`, `description`). -/
structure CampaignData where
  productName : String
  category : String
  description : String
deriving Repr, DecidableEq

/-- The `{score, reasoning}` object returned by `GeminiService.findMatches`. -/
structure MatchResult where
  score : Int
  reasoning : String
deriving Repr, DecidableEq

/-- JavaScript `String.prototype.includes`, on character lists:
`occursInList hay needle` is true when `needle` occurs contiguously in `hay`. -/
def occursInList : List Char → List Char → Bool
  | [], needle => needle.isEmpty
  | c :: t, needle => List.isPrefixOf needle (c :: t) || occursInList t needle

/-- JavaScript `hay.includes(needle)` on strings. -/
def occursIn (hay needle : String) : Bool :=
  occursInList hay.toList needle.toList

/-- JavaScript `s.toLowerCase()`, modelled character-wise (ASCII lowercasing
agrees with JavaScript on all strings the code compares against). -/
def toLowerStr (s : String) : String := String.mk (s.data.map Char.toLower)

/-- The fixed `genreBonus` table of `GeminiService.calculateFallbackScore`
(`gemini.js` lines 156–161), verbatim. -/
def genreBonusTable : List (String × List (String × Int)) :=
  [("comedy", [("entertainment", 20), ("food", 15), ("lifestyle", 10)]),
   ("educational", [("technology", 20), ("healthcare", 15), ("finance", 10)]),
   ("lifestyle", [("fashion", 20), ("beauty", 15), ("travel", 10)]),
   ("entertainment", [("gaming", 20), ("music", 15), ("sports", 10)])]

/-- `genreBonus[genre]?.[category] || 0` of `gemini.js` (both keys already
lowercased by the caller): nested lookup defaulting to `0`. -/
def lookupBonus (genre category : String) : Int :=
  match genreBonusTable.lookup genre with
  | none => 0
  | some sub =>
    match sub.lookup category with
    | none => 0
    | some b => b

/-- `GeminiService.calculateFallbackScore` (`gemini.js` lines 150–181):
base 50, plus the genre/category table bonus (case-insensitive), plus 10
when the lowercased tone contains "professional" and the lowercased
category contains "business", clamped to `[0, 100]`. -/
def calculateFallbackScore (videoData : VideoData) (campaignData : CampaignData) : Int :=
  let score : Int := 50
  let bonus : Int := lookupBonus (toLowerStr videoData.genre) (toLowerStr campaignData.category)
  let score := score + bonus
  let score :=
    if occursIn (toLowerStr videoData.tone) "professional"
        && occursIn (toLowerStr campaignData.category) "business" then
      score + 10
    else score
  min (max score 0) 100

/-- The opening-brace character (`\x7b`). -/
def lbrace : Char := Char.ofNat 123

/-- The closing-brace character (`\x7d`). -/
def rbrace : Char := Char.ofNat 125

/-- Index of the last occurrence of `c` in `cs`, if any. -/
def lastIdxOf (c : Char) (cs : List Char) : Option Nat :=
  match cs.reverse.findIdx? (· == c) with
  | none => none
  | some k => some (cs.length - 1 - k)

/-- The regex extraction `response.text.match(/\x7b[\s\S]*\x7d/)` of
`gemini.js` line 76, on character lists: the (greedy) match runs from the
first opening brace to the last closing brace, and exists exactly when some
closing brace occurs strictly after the first opening brace. -/
def extractJsonList (cs : List Char) : Option (List Char) :=
  match cs.findIdx? (· == lbrace) with
  | none => none
  | some i =>
    match lastIdxOf rbrace cs with
    | none => none
    | some j => if i < j then some ((cs.drop i).take (j - i + 1)) else none

/-- The regex extraction of `gemini.js` line 76 on strings. -/
def extractJson (s : String) : Option String :=
  (extractJsonList s.toList).map List.asString

/-- Outcome of the external `generateContent` call: either a failure
(network/rate-limit/timeout error) or a success carrying `response.text`. -/
inductive ExtResponse where
  | fail : ExtResponse
  | ok : String → ExtResponse
deriving Repr, DecidableEq

/-- The fallback `{score, reasoning}` object built in the catch branch of
`GeminiService.findMatches` (`gemini.js` lines 93–96). -/
def fallbackResult (v : VideoData) (c : CampaignData) : MatchResult :=
  let fallbackScore := calculateFallbackScore v c
  { score := fallbackScore,
    reasoning := "Automated match based on genre and category compatibility. Score: "
      ++ toString fallbackScore ++ "/100" }

/-- `GeminiService.findMatches` (`gemini.js` lines 29–98).  The external
generation call is modelled by the `resp` argument and `JSON.parse`
(restricted to the `{score, reasoning}` shape the caller reads) by the
`parse` argument, where `none` models a thrown exception; every failure
lands in the catch branch, i.e. `fallbackResult`. -/
def findMatchesService (parse : String → Option MatchResult)
    (resp : ExtResponse) (v : VideoData) (c : CampaignData) : MatchResult :=
  match resp with
  | .fail => fallbackResult v c
  | .ok text =>
    match extractJson text with
    | none => fallbackResult v c
    | some js =>
      match parse js with
      | none => fallbackResult v c
      | some result => result

/-- A document of the `Video` collection (`models.js` videoSchema): the
fields the find-matches handler reads or writes. -/
structure Video where
  id : Nat
  title : String
  genre : String
  tone : String
  creatorId : Nat
  status : String
deriving Repr, DecidableEq

/-- A document of the `Campaign` collection (`models.js` campaignSchema). -/
structure Campaign where
  id : Nat
  productName : String
  category : String
  description : String
  marketerId : Nat
deriving Repr, DecidableEq

/-- A document of the `Match` collection (`models.js` matchSchema). -/
structure MatchDoc where
  id : Nat
  videoId : Nat
  campaignId : Nat
  matchScore : Int
  reasoning : String
  status : String
deriving Repr, DecidableEq

instance : Inhabited MatchDoc :=
  ⟨{ id := 0, videoId := 0, campaignId := 0, matchScore := 0, reasoning := "", status := "" }⟩

/-- The MongoDB state the find-matches handler touches: the three
collections, plus a counter supplying fresh `_id`s for new match documents. -/
structure DB where
  videos : List Video
  campaigns : List Campaign
  matchRecords : List MatchDoc
  nextMatchId : Nat
deriving Repr, DecidableEq

/-- The authenticated principal (`req.user`), as supplied by
`authenticateToken`. -/
structure ReqUser where
  id : Nat
  role : String
deriving Repr, DecidableEq

/-- The error responses the find-matches handler can send. -/
inductive ApiError where
  | badRequest : ApiError
  | notFound : String → ApiError
  | forbidden : ApiError
deriving Repr, DecidableEq

/-- `Match.findOne({videoId, campaignId})`: first match document of the
collection for the given pair. -/
def firstMatch (ms : List MatchDoc) (vid cid : Nat) : Option MatchDoc :=
  ms.find? (fun m => m.videoId == vid && m.campaignId == cid)

/-- `Video.findByIdAndUpdate(vid, \x7b status: "matched" \x7d)`: set the
status of the video with id `vid`, leaving every other field and every
other video unchanged. -/
def markVideoMatched (vid : Nat) (vs : List Video) : List Video :=
  vs.map (fun v => if v.id == vid then { v with status := "matched" } else v)

/-- One iteration of the video-branch loop of the handler
(`server.js` lines 630–677): re-serve an existing match for
(`vid`, `campaign.id`) if one exists, otherwise generate a score via the
generation oracle `gen`, persist a new match document (status defaults to
"pending" per `models.js`), and mark the target video as matched. -/
def videoBranchStep (gen : Video → Campaign → MatchResult) (vid : Nat) (video : Video)
    (st : List MatchDoc × DB) (campaign : Campaign) : List MatchDoc × DB :=
  let acc := st.1
  let db := st.2
  match firstMatch db.matchRecords vid campaign.id with
  | some m => (acc ++ [m], db)
  | none =>
    let aiResult := gen video campaign
    let newMatch : MatchDoc :=
      { id := db.nextMatchId, videoId := vid, campaignId := campaign.id,
        matchScore := aiResult.score, reasoning := aiResult.reasoning,
        status := "pending" }
    let db' : DB :=
      { db with
        matchRecords := db.matchRecords ++ [newMatch],
        nextMatchId := db.nextMatchId + 1,
        videos := markVideoMatched vid db.videos }
    (acc ++ [newMatch], db')

/-- One iteration of the campaign-branch loop of the handler
(`server.js` lines 706–753): symmetric to `videoBranchStep`, with the loop
running over videos and the loop video's status being marked matched. -/
def campaignBranchStep (gen : Video → Campaign → MatchResult) (cid : Nat) (campaign : Campaign)
    (st : List MatchDoc × DB) (video : Video) : List MatchDoc × DB :=
  let acc := st.1
  let db := st.2
  match firstMatch db.matchRecords video.id cid with
  | some m => (acc ++ [m], db)
  | none =>
    let aiResult := gen video campaign
    let newMatch : MatchDoc :=
      { id := db.nextMatchId, videoId := video.id, campaignId := cid,
        matchScore := aiResult.score, reasoning := aiResult.reasoning,
        status := "pending" }
    let db' : DB :=
      { db with
        matchRecords := db.matchRecords ++ [newMatch],
        nextMatchId := db.nextMatchId + 1,
        videos := markVideoMatched video.id db.videos }
    (acc ++ [newMatch], db')

/-- The video branch of the handler (`server.js` lines 607–678): load the
target video (404 if absent), enforce ownership when the actor is a
creator (403), then loop over all campaigns.  Both failures occur before
any database mutation. -/
def runVideoBranch (gen : Video → Campaign → MatchResult) (user : ReqUser) (vid : Nat)
    (acc : List MatchDoc) (db : DB) : Except ApiError (List MatchDoc × DB) :=
  match db.videos.find? (fun v => v.id == vid) with
  | none => Except.error (ApiError.notFound "Video not found")
  | some video =>
    if user.role == "creator" && !(video.creatorId == user.id) then
      Except.error ApiError.forbidden
    else
      Except.ok (db.campaigns.foldl (videoBranchStep gen vid video) (acc, db))

/-- The campaign branch of the handler (`server.js` lines 680–754): load
the target campaign (404 if absent), enforce ownership when the actor is a
marketer (403), then loop over the snapshot of all videos.  Both failures
occur before any database mutation by this branch. -/
def runCampaignBranch (gen : Video → Campaign → MatchResult) (user : ReqUser) (cid : Nat)
    (acc : List MatchDoc) (db : DB) : Except ApiError (List MatchDoc × DB) :=
  match db.campaigns.find? (fun c => c.id == cid) with
  | none => Except.error (ApiError.notFound "Campaign not found")
  | some campaign =>
    if user.role == "marketer" && !(campaign.marketerId == user.id) then
      Except.error ApiError.forbidden
    else
      Except.ok (db.videos.foldl (campaignBranchStep gen cid campaign) (acc, db))

/-- `matches.sort((a, b) => b.matchScore - a.matchScore)` of `server.js`
line 757: a stable sort by score descending (JavaScript `Array.prototype.sort`
is required to be stable). -/
def sortMatches (ms : List MatchDoc) : List MatchDoc :=
  ms.mergeSort (fun a b => b.matchScore ≤ a.matchScore)

/-- The `/api/ai/find-matches` handler (`server.js` lines 594–775): reject
when neither id is supplied; otherwise run the video branch (when `videoId`
is present) and then the campaign branch (when `campaignId` is present)
over the evolving database, and answer the sorted accumulated matches.
The returned `DB` is the state after the request: branch failures happen
before the failing branch's own mutations, so an error response leaves the
database as it was when that branch started. -/
def findMatchesHandler (gen : Video → Campaign → MatchResult) (user : ReqUser)
    (vidOpt cidOpt : Option Nat) (db : DB) : Except ApiError (List MatchDoc) × DB :=
  match vidOpt, cidOpt with
  | none, none => (Except.error ApiError.badRequest, db)
  | some vid, none =>
    match runVideoBranch gen user vid [] db with
    | Except.error e => (Except.error e, db)
    | Except.ok (ms, db1) => (Except.ok (sortMatches ms), db1)
  | none, some cid =>
    match runCampaignBranch gen user cid [] db with
    | Except.error e => (Except.error e, db)
    | Except.ok (ms, db1) => (Except.ok (sortMatches ms), db1)
  | some vid, some cid =>
    match runVideoBranch gen user vid [] db with
    | Except.error e => (Except.error e, db)
    | Except.ok (ms, db1) =>
      match runCampaignBranch gen user cid ms db1 with
      | Except.error e => (Except.error e, db1)
      | Except.ok (ms2, db2) => (Except.ok (sortMatches ms2), db2)

/-! ## Theorems about the fallback scorer -/

/-- The Fallback Scorer as the specification words it: 50, plus the
genre→category table bonus looked up case-insensitively (0 when absent),
plus 10 for a "professional" tone with a "business" category, the sum
clamped to `[0, 100]`. -/
def claimFallbackScore (v : VideoData) (c : CampaignData) : Int :=
  min 100 (max 0 (50 + lookupBonus (toLowerStr v.genre) (toLowerStr c.category) +
    (if occursIn (toLowerStr v.tone) "professional"
        && occursIn (toLowerStr c.category) "business" then 10 else 0)))

/-- The score computed by `calculateFallbackScore` before the final clamp. -/
def rawFallbackScore (v : VideoData) (c : CampaignData) : Int :=
  50 + lookupBonus (toLowerStr v.genre) (toLowerStr c.category) +
    (if occursIn (toLowerStr v.tone) "professional"
        && occursIn (toLowerStr c.category) "business" then 10 else 0)

/-- The inner category lookup of `lookupBonus`, defaulting to `0`. -/
def subLookup (cat : String) (l : List (String × Int)) : Int :=
  match l.lookup cat with
  | none => 0
  | some b => b

/-- The match document built and saved by the video branch for a fresh
(`vid`, `c.id`) pair (an abbreviation for the record in `videoBranchStep`). -/
def newMatchDoc (gen : Video → Campaign → MatchResult) (vid : Nat) (video : Video)
    (db : DB) (c : Campaign) : MatchDoc :=
  { id := db.nextMatchId, videoId := vid, campaignId := c.id,
    matchScore := (gen video c).score, reasoning := (gen video c).reasoning,
    status := "pending" }

lemma lookupBonus_eq (g cat : String) :
    lookupBonus g cat =
      match genreBonusTable.lookup g with
      | none => 0
      | some sub => subLookup cat sub := rfl

lemma subLookup_cases (cat k1 k2 k3 : String) (b1 b2 b3 : Int) :
    subLookup cat [(k1, b1), (k2, b2), (k3, b3)] = 0 ∨
    (cat = k1 ∧ subLookup cat [(k1, b1), (k2, b2), (k3, b3)] = b1) ∨
    (cat = k2 ∧ subLookup cat [(k1, b1), (k2, b2), (k3, b3)] = b2) ∨
    (cat = k3 ∧ subLookup cat [(k1, b1), (k2, b2), (k3, b3)] = b3) := by
  unfold subLookup
  simp only [List.lookup_cons, List.lookup_nil]
  cases h1 : cat == k1 <;> simp only [h1]
  case true => right; left; exact ⟨eq_of_beq h1, by trivial⟩
  cases h2 : cat == k2 <;> simp only [h2]
  case true => right; right; left; exact ⟨eq_of_beq h2, by trivial⟩
  cases h3 : cat == k3 <;> simp only [h3]
  case true => right; right; right; exact ⟨eq_of_beq h3, by trivial⟩
  left; trivial

/-- Case analysis of the genre/category table bonus: it is one of
0, 10, 15, 20, and a nonzero bonus forces the category to be one of the
twelve table keys, none of which contains the substring "business". -/
lemma lookupBonus_cases (g cat : String) :
    (lookupBonus g cat = 0 ∨ lookupBonus g cat = 10 ∨ lookupBonus g cat = 15 ∨
      lookupBonus g cat = 20) ∧
    (lookupBonus g cat ≠ 0 → occursIn cat "business" = false) := by
  rw [lookupBonus_eq]
  unfold genreBonusTable
  simp only [List.lookup_cons, List.lookup_nil]
  cases h1 : g == "comedy" <;> simp only [h1]
  case true =>
    rcases subLookup_cases cat "entertainment" "food" "lifestyle" 20 15 10 with
      h | ⟨rfl, h⟩ | ⟨rfl, h⟩ | ⟨rfl, h⟩ <;> simp [h] <;> decide
  cases h2 : g == "educational" <;> simp only [h2]
  case true =>
    rcases subLookup_cases cat "technology" "healthcare" "finance" 20 15 10 with
      h | ⟨rfl, h⟩ | ⟨rfl, h⟩ | ⟨rfl, h⟩ <;> simp [h] <;> decide
  cases h3 : g == "lifestyle" <;> simp only [h3]
  case true =>
    rcases subLookup_cases cat "fashion" "beauty" "travel" 20 15 10 with
      h | ⟨rfl, h⟩ | ⟨rfl, h⟩ | ⟨rfl, h⟩ <;> simp [h] <;> decide
  cases h4 : g == "entertainment" <;> simp only [h4]
  case true =>
    rcases subLookup_cases cat "gaming" "music" "sports" 20 15 10 with
      h | ⟨rfl, h⟩ | ⟨rfl, h⟩ | ⟨rfl, h⟩ <;> simp [h] <;> decide
  simp

/-- C3: the Fallback Scorer returns exactly 50 plus the case-insensitive
genre→category table bonus (0 when either key is absent) plus 10 for a
"professional" tone with a "business" category, clamped to `[0, 100]`;
in particular a comedy video against an entertainment campaign scores 70,
and an unknown category scores 50. -/
theorem calculateFallbackScore_spec :
    (∀ (v : VideoData) (c : CampaignData),
      calculateFallbackScore v c = claimFallbackScore v c) ∧
    calculateFallbackScore ⟨"t", "comedy", "x"⟩ ⟨"p", "entertainment", "d"⟩ = 70 ∧
    calculateFallbackScore ⟨"t", "comedy", "x"⟩ ⟨"p", "unknowncat", "d"⟩ = 50 := by
  refine ⟨fun v c => ?_, by decide, by decide⟩
  rcases Bool.eq_false_or_eq_true
      (occursIn (toLowerStr v.tone) "professional" && occursIn (toLowerStr c.category) "business")
    with h | h <;>
  simp only [calculateFallbackScore, claimFallbackScore, h, if_true, if_false,
    Bool.false_eq_true] <;>
  omega

/-- C8: the Fallback Scorer only ever outputs 50, 60, 65 or 70: the table
bonus and the tone/business bonus are mutually exclusive (no table key
contains "business"), the maximum attainable score is 70, and the final
clamp to `[0, 100]` never changes the value. -/
theorem calculateFallbackScore_range (v : VideoData) (c : CampaignData) :
    (calculateFallbackScore v c = 50 ∨ calculateFallbackScore v c = 60 ∨
      calculateFallbackScore v c = 65 ∨ calculateFallbackScore v c = 70) ∧
    (lookupBonus (toLowerStr v.genre) (toLowerStr c.category) ≠ 0 →
      occursIn (toLowerStr c.category) "business" = false) ∧
    calculateFallbackScore v c ≤ 70 ∧
    calculateFallbackScore v c = rawFallbackScore v c := by
  obtain ⟨hb, hexcl⟩ := lookupBonus_cases (toLowerStr v.genre) (toLowerStr c.category)
  have hcalc : calculateFallbackScore v c = min (max (rawFallbackScore v c) 0) 100 := by
    rcases Bool.eq_false_or_eq_true
        (occursIn (toLowerStr v.tone) "professional" && occursIn (toLowerStr c.category) "business")
      with h | h <;>
    simp only [calculateFallbackScore, rawFallbackScore, h, if_true, if_false,
      Bool.false_eq_true]
    ring_nf
  have hraw : rawFallbackScore v c = 50 ∨ rawFallbackScore v c = 60 ∨
      rawFallbackScore v c = 65 ∨ rawFallbackScore v c = 70 := by
    unfold rawFallbackScore
    cases hcond : (occursIn (toLowerStr v.tone) "professional"
        && occursIn (toLowerStr c.category) "business")
    · simp only [hcond, Bool.false_eq_true, if_false]
      omega
    · have hbus : occursIn (toLowerStr c.category) "business" = true :=
        (Bool.and_eq_true _ _).mp hcond |>.2
      have hb0 : lookupBonus (toLowerStr v.genre) (toLowerStr c.category) = 0 := by
        by_contra hne
        rw [hexcl hne] at hbus
        exact Bool.false_ne_true hbus
      simp only [hcond, if_true, hb0]
      omega
  refine ⟨?_, hexcl, ?_, ?_⟩ <;> omega

/-- C8 witness: a category that earns a table bonus cannot also earn the
tone/business bonus. -/
theorem calculateFallbackScore_range_witness :
    lookupBonus (toLowerStr "comedy") (toLowerStr "entertainment") ≠ 0 ∧
    occursIn (toLowerStr "entertainment") "business" = false := by
  refine ⟨by decide, ?_⟩
  exact (calculateFallbackScore_range ⟨"t", "comedy", "x"⟩
    ⟨"p", "entertainment", "d"⟩).2.1 (by decide)

/-! ## Theorems about the match generation service -/

/-- C2: `GeminiService.findMatches` never propagates an error: on a failed
external call, on a response with no extractable JSON substring, and on an
unparseable extracted substring, it returns exactly the Fallback Scorer's
score together with the fixed reasoning template
`"Automated match based on genre and category compatibility. Score: <s>/100"`. -/
theorem findMatchesService_fallback :
    (∀ (parse : String → Option MatchResult) (v : VideoData) (c : CampaignData),
      findMatchesService parse ExtResponse.fail v c =
        { score := calculateFallbackScore v c,
          reasoning := "Automated match based on genre and category compatibility. Score: "
            ++ toString (calculateFallbackScore v c) ++ "/100" }) ∧
    (∀ (parse : String → Option MatchResult) (text : String) (v : VideoData) (c : CampaignData),
      extractJson text = none →
      findMatchesService parse (ExtResponse.ok text) v c =
        { score := calculateFallbackScore v c,
          reasoning := "Automated match based on genre and category compatibility. Score: "
            ++ toString (calculateFallbackScore v c) ++ "/100" }) ∧
    (∀ (parse : String → Option MatchResult) (text js : String) (v : VideoData)
        (c : CampaignData),
      extractJson text = some js → parse js = none →
      findMatchesService parse (ExtResponse.ok text) v c =
        { score := calculateFallbackScore v c,
          reasoning := "Automated match based on genre and category compatibility. Score: "
            ++ toString (calculateFallbackScore v c) ++ "/100" }) := by
  refine ⟨fun parse v c => rfl, fun parse text v c hx => ?_, fun parse text js v c hx hp => ?_⟩
  · simp only [findMatchesService, hx]
    rfl
  · simp only [findMatchesService, hx, hp]
    rfl

/-- C2 witness: concrete fallback activations of the service. -/
theorem findMatchesService_fallback_witness :
    extractJson "no json here" = none ∧
    findMatchesService (fun _ => none) (ExtResponse.ok "no json here")
        ⟨"t", "comedy", "x"⟩ ⟨"p", "entertainment", "d"⟩ =
      { score := 70,
        reasoning := "Automated match based on genre and category compatibility. Score: 70/100" } ∧
    extractJson "pre \x7b bad json \x7d post" = some "\x7b bad json \x7d" ∧
    findMatchesService (fun _ => none) (ExtResponse.ok "pre \x7b bad json \x7d post")
        ⟨"t", "comedy", "x"⟩ ⟨"p", "entertainment", "d"⟩ =
      { score := 70,
        reasoning := "Automated match based on genre and category compatibility. Score: 70/100" } := by
  refine ⟨by decide, ?_, by decide, ?_⟩
  · have h := findMatchesService_fallback.2.1 (fun _ => none) "no json here"
      ⟨"t", "comedy", "x"⟩ ⟨"p", "entertainment", "d"⟩ (by decide)
    rw [h]
    decide
  · have h := findMatchesService_fallback.2.2 (fun _ => none) "pre \x7b bad json \x7d post"
      "\x7b bad json \x7d" ⟨"t", "comedy", "x"⟩ ⟨"p", "entertainment", "d"⟩ (by decide) rfl
    rw [h]
    decide

/-- Greedy JSON extraction: a text made of brace-free prose around one
`\x7b...\x7d` block extracts exactly that block. -/
lemma extractJsonList_embed (as mid bs : List Char)
    (ha : lbrace ∉ as) (hb : rbrace ∉ bs) :
    extractJsonList (as ++ (lbrace :: mid ++ [rbrace]) ++ bs)
      = some (lbrace :: mid ++ [rbrace]) := by
  have h1 : List.findIdx? (· == lbrace) as = none := by
    rw [List.findIdx?_eq_none_iff]
    intro x hx
    simp only [beq_eq_false_iff_ne, ne_eq]
    exact fun h => ha (h ▸ hx)
  have h2 : List.findIdx? (· == rbrace) bs.reverse = none := by
    rw [List.findIdx?_eq_none_iff]
    intro x hx
    simp only [beq_eq_false_iff_ne, ne_eq]
    exact fun h => hb (h ▸ (List.mem_reverse.mp hx))
  have hfirst : List.findIdx? (· == lbrace)
      (as ++ (lbrace :: mid ++ [rbrace]) ++ bs) = some as.length := by
    rw [List.append_assoc, List.findIdx?_append, h1]
    simp
  have hrev : (as ++ (lbrace :: mid ++ [rbrace]) ++ bs).reverse
      = bs.reverse ++ ((rbrace :: mid.reverse) ++ (lbrace :: as.reverse)) := by
    simp
  have hlast : lastIdxOf rbrace (as ++ (lbrace :: mid ++ [rbrace]) ++ bs)
      = some (as.length + mid.length + 1) := by
    unfold lastIdxOf
    rw [hrev, List.findIdx?_append, h2]
    have h3 : List.findIdx? (· == rbrace) (rbrace :: mid.reverse ++ lbrace :: as.reverse)
        = some 0 := by simp
    rw [Option.none_or, h3]
    simp only [Option.map_some', Nat.zero_add, List.length_append, List.length_cons,
      List.length_reverse, List.length_nil, Option.some.injEq]
    omega
  unfold extractJsonList
  have hlt : as.length < as.length + mid.length + 1 := by omega
  simp only [hfirst, hlast, if_pos hlt]
  have htake : as.length + mid.length + 1 - as.length + 1 = (lbrace :: mid ++ [rbrace]).length := by
    simp only [List.length_cons, List.length_append, List.length_nil]
    omega
  rw [List.append_assoc, List.drop_left, htake, List.take_left]

/-- C4: the service extracts the substring from the first opening brace to
the last closing brace (so prose before and after a JSON block is stripped),
treats a missing or unparseable substring as failure into the fallback, and
returns a successfully parsed object verbatim — no clamping or
re-validation of the parsed score. -/
theorem findMatchesService_extraction :
    (∀ as mid bs : List Char, lbrace ∉ as → rbrace ∉ bs →
      extractJsonList (as ++ (lbrace :: mid ++ [rbrace]) ++ bs)
        = some (lbrace :: mid ++ [rbrace])) ∧
    (∀ (parse : String → Option MatchResult) (text : String) (v : VideoData) (c : CampaignData),
      extractJson text = none →
      findMatchesService parse (ExtResponse.ok text) v c = fallbackResult v c) ∧
    (∀ (parse : String → Option MatchResult) (text js : String) (v : VideoData)
        (c : CampaignData),
      extractJson text = some js → parse js = none →
      findMatchesService parse (ExtResponse.ok text) v c = fallbackResult v c) ∧
    (∀ (parse : String → Option MatchResult) (text js : String) (r : MatchResult)
        (v : VideoData) (c : CampaignData),
      extractJson text = some js → parse js = some r →
      findMatchesService parse (ExtResponse.ok text) v c = r) := by
  refine ⟨extractJsonList_embed, fun parse text v c hx => ?_,
    fun parse text js v c hx hp => ?_, fun parse text js r v c hx hp => ?_⟩
  · simp only [findMatchesService, hx]
  · simp only [findMatchesService, hx, hp]
  · simp only [findMatchesService, hx, hp]

/-- C4 witness: prose around a JSON block extracts to exactly the block,
and an out-of-range parsed score (150) is passed through verbatim. -/
theorem findMatchesService_extraction_witness :
    lbrace ∉ "Sure! Here is the JSON: ".toList ∧
    rbrace ∉ " Hope this helps.".toList ∧
    extractJsonList ("Sure! Here is the JSON: ".toList
        ++ (lbrace :: "\"score\": 150".toList ++ [rbrace]) ++ " Hope this helps.".toList)
      = some (lbrace :: "\"score\": 150".toList ++ [rbrace]) ∧
    extractJson "x\x7by\x7dz" = some "\x7by\x7d" ∧
    findMatchesService (fun _ => some { score := 150, reasoning := "great" })
        (ExtResponse.ok "x\x7by\x7dz") ⟨"t", "g", "tn"⟩ ⟨"p", "c", "d"⟩ =
      { score := 150, reasoning := "great" } := by
  refine ⟨by decide, by decide, ?_, by decide, ?_⟩
  · exact findMatchesService_extraction.1 "Sure! Here is the JSON: ".toList
      "\"score\": 150".toList " Hope this helps.".toList (by decide) (by decide)
  · exact findMatchesService_extraction.2.2.2 (fun _ => some { score := 150, reasoning := "great" })
      "x\x7by\x7dz" "\x7by\x7d" { score := 150, reasoning := "great" }
      ⟨"t", "g", "tn"⟩ ⟨"p", "c", "d"⟩ (by decide) rfl

/-! ## Theorems about the match orchestrator -/

/-- C7: for a pair with no existing match record, one loop iteration of the
video branch persists exactly one new MatchRecord — carrying the generated
score and reasoning and the default status "pending" — and sets the target
video's status to "matched" while leaving all other video fields, all other
videos, the campaign collection and the accumulated result list's earlier
entries unchanged. -/
theorem videoBranchStep_new_pair (gen : Video → Campaign → MatchResult) (vid : Nat)
    (video : Video) (acc : List MatchDoc) (db : DB) (campaign : Campaign)
    (h : firstMatch db.matchRecords vid campaign.id = none) :
    videoBranchStep gen vid video (acc, db) campaign =
      (acc ++ [{ id := db.nextMatchId, videoId := vid, campaignId := campaign.id,
                 matchScore := (gen video campaign).score,
                 reasoning := (gen video campaign).reasoning,
                 status := "pending" }],
       { videos := db.videos.map
           (fun v => if v.id == vid then { v with status := "matched" } else v),
         campaigns := db.campaigns,
         matchRecords := db.matchRecords ++
           [{ id := db.nextMatchId, videoId := vid, campaignId := campaign.id,
              matchScore := (gen video campaign).score,
              reasoning := (gen video campaign).reasoning,
              status := "pending" }],
         nextMatchId := db.nextMatchId + 1 }) := by
  simp only [videoBranchStep, h, markVideoMatched]

/-- C7 witness: a concrete fresh pair. -/
theorem videoBranchStep_new_pair_witness :
    firstMatch ([] : List MatchDoc) 1 2 = none ∧
    videoBranchStep (fun _ _ => { score := 55, reasoning := "r" }) 1
        { id := 1, title := "t", genre := "comedy", tone := "fun", creatorId := 7,
          status := "uploaded" }
        ([], { videos := [{ id := 1, title := "t", genre := "comedy", tone := "fun",
                            creatorId := 7, status := "uploaded" }],
               campaigns := [{ id := 2, productName := "p", category := "entertainment",
                               description := "d", marketerId := 9 }],
               matchRecords := [], nextMatchId := 0 })
        { id := 2, productName := "p", category := "entertainment", description := "d",
          marketerId := 9 } =
      ([{ id := 0, videoId := 1, campaignId := 2, matchScore := 55, reasoning := "r",
          status := "pending" }],
       { videos := [{ id := 1, title := "t", genre := "comedy", tone := "fun",
                      creatorId := 7, status := "matched" }],
         campaigns := [{ id := 2, productName := "p", category := "entertainment",
                         description := "d", marketerId := 9 }],
         matchRecords := [{ id := 0, videoId := 1, campaignId := 2, matchScore := 55,
                            reasoning := "r", status := "pending" }],
         nextMatchId := 1 }) := by
  refine ⟨rfl, ?_⟩
  have h := videoBranchStep_new_pair (fun _ _ => { score := 55, reasoning := "r" }) 1
    { id := 1, title := "t", genre := "comedy", tone := "fun", creatorId := 7,
      status := "uploaded" }
    []
    { videos := [{ id := 1, title := "t", genre := "comedy", tone := "fun",
                   creatorId := 7, status := "uploaded" }],
      campaigns := [{ id := 2, productName := "p", category := "entertainment",
                      description := "d", marketerId := 9 }],
      matchRecords := [], nextMatchId := 0 }
    { id := 2, productName := "p", category := "entertainment", description := "d",
      marketerId := 9 } rfl
  rw [h]
  decide

/-- C6: a find-matches request for a nonexistent video id fails with
NotFound, and a creator's request for a video they do not own fails with
Forbidden; both failures are terminal — the response is the bare error and
the database is unchanged, so nothing is generated or persisted
(symmetrically for a campaign target with the marketer role). -/
theorem findMatchesHandler_failures :
    (∀ (gen : Video → Campaign → MatchResult) (user : ReqUser) (vid : Nat)
        (cidOpt : Option Nat) (db : DB),
      db.videos.find? (fun v => v.id == vid) = none →
      findMatchesHandler gen user (some vid) cidOpt db =
        (Except.error (ApiError.notFound "Video not found"), db)) ∧
    (∀ (gen : Video → Campaign → MatchResult) (user : ReqUser) (vid : Nat)
        (cidOpt : Option Nat) (db : DB) (video : Video),
      db.videos.find? (fun v => v.id == vid) = some video →
      user.role = "creator" → video.creatorId ≠ user.id →
      findMatchesHandler gen user (some vid) cidOpt db =
        (Except.error ApiError.forbidden, db)) ∧
    (∀ (gen : Video → Campaign → MatchResult) (user : ReqUser) (cid : Nat) (db : DB),
      db.campaigns.find? (fun c => c.id == cid) = none →
      findMatchesHandler gen user none (some cid) db =
        (Except.error (ApiError.notFound "Campaign not found"), db)) ∧
    (∀ (gen : Video → Campaign → MatchResult) (user : ReqUser) (cid : Nat) (db : DB)
        (campaign : Campaign),
      db.campaigns.find? (fun c => c.id == cid) = some campaign →
      user.role = "marketer" → campaign.marketerId ≠ user.id →
      findMatchesHandler gen user none (some cid) db =
        (Except.error ApiError.forbidden, db)) := by
  refine ⟨fun gen user vid cidOpt db h => ?_, fun gen user vid cidOpt db video h hrole hown => ?_,
    fun gen user cid db h => ?_, fun gen user cid db campaign h hrole hown => ?_⟩
  · have hb : runVideoBranch gen user vid [] db =
        Except.error (ApiError.notFound "Video not found") := by
      simp only [runVideoBranch, h]
    cases cidOpt <;> simp only [findMatchesHandler, hb]
  · have hcond : (user.role == "creator" && !(video.creatorId == user.id)) = true := by
      simp [hrole, hown]
    have hb : runVideoBranch gen user vid [] db = Except.error ApiError.forbidden := by
      simp only [runVideoBranch, h, hcond, if_true]
    cases cidOpt <;> simp only [findMatchesHandler, hb]
  · have hb : runCampaignBranch gen user cid [] db =
        Except.error (ApiError.notFound "Campaign not found") := by
      simp only [runCampaignBranch, h]
    simp only [findMatchesHandler, hb]
  · have hcond : (user.role == "marketer" && !(campaign.marketerId == user.id)) = true := by
      simp [hrole, hown]
    have hb : runCampaignBranch gen user cid [] db = Except.error ApiError.forbidden := by
      simp only [runCampaignBranch, h, hcond, if_true]
    simp only [findMatchesHandler, hb]

/-- C6 witness: concrete NotFound and Forbidden terminal failures. -/
theorem findMatchesHandler_failures_witness :
    findMatchesHandler (fun _ _ => { score := 50, reasoning := "r" }) ⟨7, "creator"⟩
        (some 99) none
        { videos := [], campaigns := [], matchRecords := [], nextMatchId := 0 } =
      (Except.error (ApiError.notFound "Video not found"),
       { videos := [], campaigns := [], matchRecords := [], nextMatchId := 0 }) ∧
    findMatchesHandler (fun _ _ => { score := 50, reasoning := "r" }) ⟨7, "creator"⟩
        (some 1) none
        { videos := [{ id := 1, title := "t", genre := "g", tone := "tn", creatorId := 8,
                       status := "uploaded" }],
          campaigns := [], matchRecords := [], nextMatchId := 0 } =
      (Except.error ApiError.forbidden,
       { videos := [{ id := 1, title := "t", genre := "g", tone := "tn", creatorId := 8,
                      status := "uploaded" }],
         campaigns := [], matchRecords := [], nextMatchId := 0 }) := by
  constructor
  · exact findMatchesHandler_failures.1 (fun _ _ => { score := 50, reasoning := "r" })
      ⟨7, "creator"⟩ 99 none
      { videos := [], campaigns := [], matchRecords := [], nextMatchId := 0 } rfl
  · exact findMatchesHandler_failures.2.1 (fun _ _ => { score := 50, reasoning := "r" })
      ⟨7, "creator"⟩ 1 none
      { videos := [{ id := 1, title := "t", genre := "g", tone := "tn", creatorId := 8,
                     status := "uploaded" }],
        campaigns := [], matchRecords := [], nextMatchId := 0 }
      { id := 1, title := "t", genre := "g", tone := "tn", creatorId := 8,
        status := "uploaded" }
      rfl rfl (by decide)

/-- C10: the ownership check is applied only to the matching role — an
actor whose role is not "creator" is never denied a video target for
ownership reasons (the request reaches the generation loop and succeeds),
and an actor whose role is not "marketer" is never denied a campaign
target. -/
theorem findMatchesHandler_role_scoped :
    (∀ (gen : Video → Campaign → MatchResult) (user : ReqUser) (vid : Nat) (db : DB)
        (video : Video),
      user.role ≠ "creator" →
      db.videos.find? (fun v => v.id == vid) = some video →
      ∃ ms db', findMatchesHandler gen user (some vid) none db = (Except.ok ms, db')) ∧
    (∀ (gen : Video → Campaign → MatchResult) (user : ReqUser) (cid : Nat) (db : DB)
        (campaign : Campaign),
      user.role ≠ "marketer" →
      db.campaigns.find? (fun c => c.id == cid) = some campaign →
      ∃ ms db', findMatchesHandler gen user none (some cid) db = (Except.ok ms, db')) := by
  constructor
  · intro gen user vid db video hrole h
    have hcond : (user.role == "creator" && !(video.creatorId == user.id)) = false := by
      simp [hrole]
    rcases hfold : db.campaigns.foldl (videoBranchStep gen vid video) ([], db) with ⟨ms, db1⟩
    have hb : runVideoBranch gen user vid [] db = Except.ok (ms, db1) := by
      simp only [runVideoBranch, h, hcond, Bool.false_eq_true, if_false, hfold]
    exact ⟨sortMatches ms, db1, by simp only [findMatchesHandler, hb]⟩
  · intro gen user cid db campaign hrole h
    have hcond : (user.role == "marketer" && !(campaign.marketerId == user.id)) = false := by
      simp [hrole]
    rcases hfold : db.videos.foldl (campaignBranchStep gen cid campaign) ([], db) with ⟨ms, db1⟩
    have hb : runCampaignBranch gen user cid [] db = Except.ok (ms, db1) := by
      simp only [runCampaignBranch, h, hcond, Bool.false_eq_true, if_false, hfold]
    exact ⟨sortMatches ms, db1, by simp only [findMatchesHandler, hb]⟩

/-- C10 witness: a marketer generates matches for a video they do not own. -/
theorem findMatchesHandler_role_scoped_witness :
    (⟨9, "marketer"⟩ : ReqUser).role ≠ "creator" ∧
    (({ videos := [{ id := 1, title := "t", genre := "g", tone := "tn", creatorId := 8,
                     status := "uploaded" }],
        campaigns := [], matchRecords := [], nextMatchId := 0 } : DB).videos.find?
      (fun v => v.id == 1))
      = some { id := 1, title := "t", genre := "g", tone := "tn", creatorId := 8,
               status := "uploaded" } ∧
    ∃ ms db', findMatchesHandler (fun _ _ => { score := 50, reasoning := "r" })
        ⟨9, "marketer"⟩ (some 1) none
        { videos := [{ id := 1, title := "t", genre := "g", tone := "tn", creatorId := 8,
                       status := "uploaded" }],
          campaigns := [], matchRecords := [], nextMatchId := 0 } =
      (Except.ok ms, db') := by
  refine ⟨by decide, rfl, ?_⟩
  exact findMatchesHandler_role_scoped.1 (fun _ _ => { score := 50, reasoning := "r" })
    ⟨9, "marketer"⟩ 1
    { videos := [{ id := 1, title := "t", genre := "g", tone := "tn", creatorId := 8,
                   status := "uploaded" }],
      campaigns := [], matchRecords := [], nextMatchId := 0 }
    { id := 1, title := "t", genre := "g", tone := "tn", creatorId := 8,
      status := "uploaded" }
    (by decide) rfl

lemma videoBranchStep_acc (gen : Video → Campaign → MatchResult) (vid : Nat) (video : Video)
    (st : List MatchDoc × DB) (campaign : Campaign) :
    ∃ t, (videoBranchStep gen vid video st campaign).1 = st.1 ++ t := by
  rcases st with ⟨acc, db⟩
  cases h : firstMatch db.matchRecords vid campaign.id with
  | some m => exact ⟨[m], by simp [videoBranchStep, h]⟩
  | none =>
    exact ⟨[{ id := db.nextMatchId, videoId := vid, campaignId := campaign.id,
              matchScore := (gen video campaign).score,
              reasoning := (gen video campaign).reasoning,
              status := "pending" }], by simp [videoBranchStep, h]⟩

lemma campaignBranchStep_acc (gen : Video → Campaign → MatchResult) (cid : Nat)
    (campaign : Campaign) (st : List MatchDoc × DB) (video : Video) :
    ∃ t, (campaignBranchStep gen cid campaign st video).1 = st.1 ++ t := by
  rcases st with ⟨acc, db⟩
  cases h : firstMatch db.matchRecords video.id cid with
  | some m => exact ⟨[m], by simp [campaignBranchStep, h]⟩
  | none =>
    exact ⟨[{ id := db.nextMatchId, videoId := video.id, campaignId := cid,
              matchScore := (gen video campaign).score,
              reasoning := (gen video campaign).reasoning,
              status := "pending" }], by simp [campaignBranchStep, h]⟩

lemma foldl_acc_mono {α : Type} (step : (List MatchDoc × DB) → α → (List MatchDoc × DB))
    (hstep : ∀ st x, ∃ t, (step st x).1 = st.1 ++ t) :
    ∀ (xs : List α) (st : List MatchDoc × DB), ∃ t, (xs.foldl step st).1 = st.1 ++ t := by
  intro xs
  induction xs with
  | nil => exact fun st => ⟨[], by simp⟩
  | cons x xs ih =>
    intro st
    obtain ⟨t1, h1⟩ := hstep st x
    obtain ⟨t2, h2⟩ := ih (step st x)
    exact ⟨t1 ++ t2, by rw [List.foldl_cons, h2, h1, List.append_assoc]⟩

lemma runVideoBranch_error (gen : Video → Campaign → MatchResult) (user : ReqUser)
    (vid : Nat) (acc : List MatchDoc) (db : DB) (e : ApiError)
    (h : runVideoBranch gen user vid acc db = Except.error e) :
    e = ApiError.notFound "Video not found" ∨ e = ApiError.forbidden := by
  unfold runVideoBranch at h
  cases hf : db.videos.find? (fun v => v.id == vid) <;> simp only [hf] at h
  · left
    exact (Except.error.inj h).symm
  · split at h
    · right
      exact (Except.error.inj h).symm
    · exact absurd h (by simp)

lemma runCampaignBranch_error (gen : Video → Campaign → MatchResult) (user : ReqUser)
    (cid : Nat) (acc : List MatchDoc) (db : DB) (e : ApiError)
    (h : runCampaignBranch gen user cid acc db = Except.error e) :
    e = ApiError.notFound "Campaign not found" ∨ e = ApiError.forbidden := by
  unfold runCampaignBranch at h
  cases hf : db.campaigns.find? (fun c => c.id == cid) <;> simp only [hf] at h
  · left
    exact (Except.error.inj h).symm
  · split at h
    · right
      exact (Except.error.inj h).symm
    · exact absurd h (by simp)

lemma runCampaignBranch_acc (gen : Video → Campaign → MatchResult) (user : ReqUser)
    (cid : Nat) (acc : List MatchDoc) (db : DB) (ms : List MatchDoc) (db' : DB)
    (h : runCampaignBranch gen user cid acc db = Except.ok (ms, db')) :
    ∃ t, ms = acc ++ t := by
  unfold runCampaignBranch at h
  cases hf : db.campaigns.find? (fun c => c.id == cid) <;> simp only [hf] at h
  · exact absurd h (by simp)
  case some campaign =>
    split at h
    · exact absurd h (by simp)
    · obtain ⟨t, ht⟩ := foldl_acc_mono (campaignBranchStep gen cid campaign)
        (campaignBranchStep_acc gen cid campaign) db.videos (acc, db)
      have h' := Except.ok.inj h
      rw [h'] at ht
      exact ⟨t, ht⟩

/-- C9: a request carrying both a videoId and a campaignId is not rejected:
only a request with neither id receives the bad-request error; with both
ids present the handler runs the video workflow then the campaign workflow
on the resulting state, and answers the campaign workflow's accumulated
list — which extends the video workflow's list — sorted. -/
theorem findMatchesHandler_both_ids :
    (∀ (gen : Video → Campaign → MatchResult) (user : ReqUser) (db : DB),
      findMatchesHandler gen user none none db = (Except.error ApiError.badRequest, db)) ∧
    (∀ (gen : Video → Campaign → MatchResult) (user : ReqUser) (vid cid : Nat) (db : DB),
      (findMatchesHandler gen user (some vid) (some cid) db).1 ≠
        Except.error ApiError.badRequest) ∧
    (∀ (gen : Video → Campaign → MatchResult) (user : ReqUser) (vid cid : Nat) (db : DB)
        (ms1 : List MatchDoc) (db1 : DB) (ms2 : List MatchDoc) (db2 : DB),
      runVideoBranch gen user vid [] db = Except.ok (ms1, db1) →
      runCampaignBranch gen user cid ms1 db1 = Except.ok (ms2, db2) →
      findMatchesHandler gen user (some vid) (some cid) db =
        (Except.ok (sortMatches ms2), db2) ∧ ∃ t, ms2 = ms1 ++ t) := by
  refine ⟨fun gen user db => rfl, ?_, ?_⟩
  · intro gen user vid cid db
    cases hv : runVideoBranch gen user vid [] db with
    | error e =>
      have hh : findMatchesHandler gen user (some vid) (some cid) db =
          (Except.error e, db) := by
        simp only [findMatchesHandler, hv]
      rw [hh]
      rcases runVideoBranch_error gen user vid [] db e hv with h | h <;> subst h <;> simp
    | ok p =>
      rcases p with ⟨ms1, db1⟩
      cases hc : runCampaignBranch gen user cid ms1 db1 with
      | error e2 =>
        have hh : findMatchesHandler gen user (some vid) (some cid) db =
            (Except.error e2, db1) := by
          simp only [findMatchesHandler, hv, hc]
        rw [hh]
        rcases runCampaignBranch_error gen user cid ms1 db1 e2 hc with h | h <;>
          subst h <;> simp
      | ok q =>
        rcases q with ⟨ms2, db2⟩
        have hh : findMatchesHandler gen user (some vid) (some cid) db =
            (Except.ok (sortMatches ms2), db2) := by
          simp only [findMatchesHandler, hv, hc]
        rw [hh]
        simp
  · intro gen user vid cid db ms1 db1 ms2 db2 hv hc
    refine ⟨by simp only [findMatchesHandler, hv, hc], ?_⟩
    exact runCampaignBranch_acc gen user cid ms1 db1 ms2 db2 hc

/-- C9 witness: with both ids on an empty database the handler runs both
workflows and returns the (empty) combined sorted list. -/
theorem findMatchesHandler_both_ids_witness :
    runVideoBranch (fun _ _ => { score := 50, reasoning := "r" }) ⟨7, "admin"⟩ 1 []
        { videos := [{ id := 1, title := "t", genre := "g", tone := "tn", creatorId := 7,
                       status := "uploaded" }],
          campaigns := [{ id := 2, productName := "p", category := "c", description := "d",
                          marketerId := 9 }],
          matchRecords := [{ id := 0, videoId := 1, campaignId := 2, matchScore := 55,
                             reasoning := "r0", status := "pending" }],
          nextMatchId := 1 } =
      Except.ok ([{ id := 0, videoId := 1, campaignId := 2, matchScore := 55,
                    reasoning := "r0", status := "pending" }],
        { videos := [{ id := 1, title := "t", genre := "g", tone := "tn", creatorId := 7,
                       status := "uploaded" }],
          campaigns := [{ id := 2, productName := "p", category := "c", description := "d",
                          marketerId := 9 }],
          matchRecords := [{ id := 0, videoId := 1, campaignId := 2, matchScore := 55,
                             reasoning := "r0", status := "pending" }],
          nextMatchId := 1 }) ∧
    findMatchesHandler (fun _ _ => { score := 50, reasoning := "r" }) ⟨7, "admin"⟩
        (some 1) (some 2)
        { videos := [{ id := 1, title := "t", genre := "g", tone := "tn", creatorId := 7,
                       status := "uploaded" }],
          campaigns := [{ id := 2, productName := "p", category := "c", description := "d",
                          marketerId := 9 }],
          matchRecords := [{ id := 0, videoId := 1, campaignId := 2, matchScore := 55,
                             reasoning := "r0", status := "pending" }],
          nextMatchId := 1 } =
      (Except.ok (sortMatches [{ id := 0, videoId := 1, campaignId := 2, matchScore := 55,
                                 reasoning := "r0", status := "pending" },
                               { id := 0, videoId := 1, campaignId := 2, matchScore := 55,
                                 reasoning := "r0", status := "pending" }]),
        { videos := [{ id := 1, title := "t", genre := "g", tone := "tn", creatorId := 7,
                       status := "uploaded" }],
          campaigns := [{ id := 2, productName := "p", category := "c", description := "d",
                          marketerId := 9 }],
          matchRecords := [{ id := 0, videoId := 1, campaignId := 2, matchScore := 55,
                             reasoning := "r0", status := "pending" }],
          nextMatchId := 1 }) := by
  refine ⟨rfl, ?_⟩
  exact (findMatchesHandler_both_ids.2.2 (fun _ _ => { score := 50, reasoning := "r" })
    ⟨7, "admin"⟩ 1 2
    { videos := [{ id := 1, title := "t", genre := "g", tone := "tn", creatorId := 7,
                   status := "uploaded" }],
      campaigns := [{ id := 2, productName := "p", category := "c", description := "d",
                      marketerId := 9 }],
      matchRecords := [{ id := 0, videoId := 1, campaignId := 2, matchScore := 55,
                         reasoning := "r0", status := "pending" }],
      nextMatchId := 1 }
    [{ id := 0, videoId := 1, campaignId := 2, matchScore := 55, reasoning := "r0",
       status := "pending" }]
    { videos := [{ id := 1, title := "t", genre := "g", tone := "tn", creatorId := 7,
                   status := "uploaded" }],
      campaigns := [{ id := 2, productName := "p", category := "c", description := "d",
                      marketerId := 9 }],
      matchRecords := [{ id := 0, videoId := 1, campaignId := 2, matchScore := 55,
                         reasoning := "r0", status := "pending" }],
      nextMatchId := 1 }
    [{ id := 0, videoId := 1, campaignId := 2, matchScore := 55, reasoning := "r0",
       status := "pending" },
     { id := 0, videoId := 1, campaignId := 2, matchScore := 55, reasoning := "r0",
       status := "pending" }]
    { videos := [{ id := 1, title := "t", genre := "g", tone := "tn", creatorId := 7,
                   status := "uploaded" }],
      campaigns := [{ id := 2, productName := "p", category := "c", description := "d",
                      marketerId := 9 }],
      matchRecords := [{ id := 0, videoId := 1, campaignId := 2, matchScore := 55,
                         reasoning := "r0", status := "pending" }],
      nextMatchId := 1 }
    rfl rfl).1

/-- C5: the list returned by the orchestrator's final
`matches.sort((a, b) => b.matchScore - a.matchScore)` is sorted by score
descending, is a permutation of the assembled list, is stable (the
subsequence of entries with any given score keeps its discovery order),
and is strictly descending when the scores are distinct. -/
theorem sortMatches_spec (l : List MatchDoc) :
    (sortMatches l).Pairwise (fun a b => b.matchScore ≤ a.matchScore) ∧
    (sortMatches l).Perm l ∧
    (∀ s : Int, (sortMatches l).filter (fun m => m.matchScore == s) =
      l.filter (fun m => m.matchScore == s)) ∧
    ((l.map MatchDoc.matchScore).Nodup →
      (sortMatches l).Pairwise (fun a b => b.matchScore < a.matchScore)) := by
  have htrans : ∀ a b c : MatchDoc,
      (fun a b : MatchDoc => decide (b.matchScore ≤ a.matchScore)) a b →
      (fun a b : MatchDoc => decide (b.matchScore ≤ a.matchScore)) b c →
      (fun a b : MatchDoc => decide (b.matchScore ≤ a.matchScore)) a c := by
    intro a b c hab hbc
    simp only [decide_eq_true_eq] at *
    omega
  have htotal : ∀ a b : MatchDoc,
      ((fun a b : MatchDoc => decide (b.matchScore ≤ a.matchScore)) a b ||
        (fun a b : MatchDoc => decide (b.matchScore ≤ a.matchScore)) b a) = true := by
    intro a b
    simp only [Bool.or_eq_true, decide_eq_true_eq]
    omega
  have hperm : (sortMatches l).Perm l := List.mergeSort_perm l _
  have hsorted : (sortMatches l).Pairwise (fun a b => b.matchScore ≤ a.matchScore) := by
    have h := List.sorted_mergeSort htrans htotal l
    exact h.imp (fun hab => by simpa using hab)
  refine ⟨hsorted, hperm, ?_, ?_⟩
  · intro s
    have hmem : ∀ m ∈ l.filter (fun m => m.matchScore == s), m.matchScore = s := by
      intro m hm
      have := (List.mem_filter.mp hm).2
      simpa using this
    have hc : (l.filter (fun m => m.matchScore == s)).Pairwise
        (fun a b : MatchDoc => decide (b.matchScore ≤ a.matchScore) = true) := by
      apply List.pairwise_of_forall_mem_list
      intro a ha b hb
      have hsa := hmem a ha
      have hsb := hmem b hb
      simp [hsa, hsb]
    have hstable : List.Sublist (l.filter (fun m => m.matchScore == s)) (sortMatches l) :=
      List.sublist_mergeSort htrans htotal hc (List.filter_sublist l)
    have hfix : (l.filter (fun m => m.matchScore == s)).filter (fun m => m.matchScore == s)
        = l.filter (fun m => m.matchScore == s) := by
      apply List.filter_eq_self.mpr
      intro a ha
      exact (List.mem_filter.mp ha).2
    have h2 : List.Sublist (l.filter (fun m => m.matchScore == s))
        ((sortMatches l).filter (fun m => m.matchScore == s)) := by
      have := hstable.filter (fun m => m.matchScore == s)
      rwa [hfix] at this
    have h3 : ((sortMatches l).filter (fun m => m.matchScore == s)).length =
        (l.filter (fun m => m.matchScore == s)).length :=
      (hperm.filter (fun m => m.matchScore == s)).length_eq
    exact (h2.eq_of_length h3.symm).symm
  · intro hnodup
    have hnodup' : ((sortMatches l).map MatchDoc.matchScore).Nodup :=
      ((hperm.map MatchDoc.matchScore).nodup_iff).mpr hnodup
    have hne : (sortMatches l).Pairwise (fun a b => a.matchScore ≠ b.matchScore) :=
      (List.pairwise_map).mp hnodup'
    exact hsorted.imp₂ (fun a b hab hne' => lt_of_le_of_ne hab (Ne.symm hne')) hne

/-- C5 witness: a concrete list with distinct scores sorts strictly
descending. -/
theorem sortMatches_spec_witness :
    (([{ id := 0, videoId := 1, campaignId := 2, matchScore := 55, reasoning := "a",
         status := "pending" },
       { id := 1, videoId := 1, campaignId := 3, matchScore := 70, reasoning := "b",
         status := "pending" }] : List MatchDoc).map MatchDoc.matchScore).Nodup ∧
    (sortMatches [{ id := 0, videoId := 1, campaignId := 2, matchScore := 55, reasoning := "a",
                    status := "pending" },
                  { id := 1, videoId := 1, campaignId := 3, matchScore := 70, reasoning := "b",
                    status := "pending" }]).Pairwise
      (fun a b => b.matchScore < a.matchScore) := by
  refine ⟨by decide, ?_⟩
  exact (sortMatches_spec
    [{ id := 0, videoId := 1, campaignId := 2, matchScore := 55, reasoning := "a",
       status := "pending" },
     { id := 1, videoId := 1, campaignId := 3, matchScore := 70, reasoning := "b",
       status := "pending" }]).2.2.2 (by decide)

lemma firstMatch_append_some (ms d : List MatchDoc) (vid cid : Nat) (m : MatchDoc)
    (h : firstMatch ms vid cid = some m) : firstMatch (ms ++ d) vid cid = some m := by
  unfold firstMatch at *
  rw [List.find?_append, h]
  rfl

lemma firstMatch_append_new (ms d : List MatchDoc) (vid cid : Nat) (nm : MatchDoc)
    (h : firstMatch ms vid cid = none) (h1 : nm.videoId = vid) (h2 : nm.campaignId = cid) :
    firstMatch (ms ++ nm :: d) vid cid = some nm := by
  unfold firstMatch at *
  rw [List.find?_append, h, Option.none_or, List.find?_cons_of_pos]
  simp [h1, h2]

lemma markVideoMatched_idem (vid : Nat) (vs : List Video) :
    markVideoMatched vid (markVideoMatched vid vs) = markVideoMatched vid vs := by
  unfold markVideoMatched
  rw [List.map_map]
  apply List.map_congr_left
  intro v _
  by_cases h : v.id == vid <;> simp [Function.comp, h]

lemma find?_id_markVideoMatched (vid w : Nat) (vs : List Video) :
    (markVideoMatched vid vs).find? (fun v => v.id == w)
      = (vs.find? (fun v => v.id == w)).map
          (fun v => if v.id == vid then { v with status := "matched" } else v) := by
  unfold markVideoMatched
  rw [List.find?_map]
  have hp : ((fun v : Video => v.id == w) ∘
      (fun v => if v.id == vid then { v with status := "matched" } else v))
      = (fun v : Video => v.id == w) := by
    funext v
    by_cases h : v.id == vid <;> simp [Function.comp, h]
  rw [hp]

lemma videoBranchStep_some (gen : Video → Campaign → MatchResult) (vid : Nat) (video : Video)
    (acc : List MatchDoc) (db : DB) (c : Campaign) (m : MatchDoc)
    (h : firstMatch db.matchRecords vid c.id = some m) :
    videoBranchStep gen vid video (acc, db) c = (acc ++ [m], db) := by
  simp [videoBranchStep, h]

lemma videoBranchStep_none (gen : Video → Campaign → MatchResult) (vid : Nat) (video : Video)
    (acc : List MatchDoc) (db : DB) (c : Campaign)
    (h : firstMatch db.matchRecords vid c.id = none) :
    videoBranchStep gen vid video (acc, db) c =
      (acc ++ [newMatchDoc gen vid video db c],
       { db with matchRecords := db.matchRecords ++ [newMatchDoc gen vid video db c],
                 nextMatchId := db.nextMatchId + 1,
                 videos := markVideoMatched vid db.videos }) := by
  simp [videoBranchStep, newMatchDoc, h]

/-- After the video-branch loop: match records only grow, campaigns are
untouched, videos are at most status-marked, every processed campaign has a
stored record for its pair, and the accumulated list is exactly the
per-campaign stored records (in campaign enumeration order). -/
lemma videoFold_spec (gen : Video → Campaign → MatchResult) (vid : Nat) (video : Video) :
    ∀ (cs : List Campaign) (acc : List MatchDoc) (db : DB),
      (∃ d, (cs.foldl (videoBranchStep gen vid video) (acc, db)).2.matchRecords
          = db.matchRecords ++ d) ∧
      (cs.foldl (videoBranchStep gen vid video) (acc, db)).2.campaigns = db.campaigns ∧
      ((cs.foldl (videoBranchStep gen vid video) (acc, db)).2.videos = db.videos ∨
        (cs.foldl (videoBranchStep gen vid video) (acc, db)).2.videos
          = markVideoMatched vid db.videos) ∧
      (cs.foldl (videoBranchStep gen vid video) (acc, db)).2.nextMatchId ≥ db.nextMatchId ∧
      (∀ c ∈ cs, ∃ m, firstMatch
          (cs.foldl (videoBranchStep gen vid video) (acc, db)).2.matchRecords vid c.id
          = some m) ∧
      (cs.foldl (videoBranchStep gen vid video) (acc, db)).1
        = acc ++ cs.map (fun c =>
            (firstMatch (cs.foldl (videoBranchStep gen vid video) (acc, db)).2.matchRecords
              vid c.id).getD default) := by
  intro cs
  induction cs with
  | nil =>
    intro acc db
    refine ⟨⟨[], by simp⟩, rfl, Or.inl rfl, le_refl _, by simp, by simp⟩
  | cons c cs ih =>
    intro acc db
    cases h : firstMatch db.matchRecords vid c.id with
    | some m =>
      have hstep := videoBranchStep_some gen vid video acc db c m h
      obtain ⟨⟨d, hd⟩, hcamp, hvids, hnext, hall, hacc⟩ := ih (acc ++ [m]) db
      rw [List.foldl_cons, hstep]
      have hfc : firstMatch
          (cs.foldl (videoBranchStep gen vid video) (acc ++ [m], db)).2.matchRecords
          vid c.id = some m := by
        rw [hd]
        exact firstMatch_append_some _ _ _ _ _ h
      refine ⟨⟨d, hd⟩, hcamp, hvids, hnext, ?_, ?_⟩
      · intro c' hc'
        rcases List.mem_cons.mp hc' with rfl | hmem
        · exact ⟨m, hfc⟩
        · exact hall c' hmem
      · rw [hacc]
        simp only [List.map_cons, hfc, Option.getD_some]
        simp
    | none =>
      have hstep := videoBranchStep_none gen vid video acc db c h
      set db' : DB :=
        { db with matchRecords := db.matchRecords ++ [newMatchDoc gen vid video db c],
                  nextMatchId := db.nextMatchId + 1,
                  videos := markVideoMatched vid db.videos } with hdb'
      obtain ⟨⟨d, hd⟩, hcamp, hvids, hnext, hall, hacc⟩ :=
        ih (acc ++ [newMatchDoc gen vid video db c]) db'
      rw [List.foldl_cons, hstep]
      have hfc : firstMatch
          (cs.foldl (videoBranchStep gen vid video)
            (acc ++ [newMatchDoc gen vid video db c], db')).2.matchRecords
          vid c.id = some (newMatchDoc gen vid video db c) := by
        rw [hd, hdb']
        simp only [List.append_assoc, List.singleton_append]
        exact firstMatch_append_new _ _ _ _ _ h rfl rfl
      refine ⟨⟨[newMatchDoc gen vid video db c] ++ d, ?_⟩, ?_, ?_, ?_, ?_, ?_⟩
      · rw [hd, hdb']
        simp [List.append_assoc]
      · rw [hcamp, hdb']
      · rcases hvids with hv1 | hv1
        · right
          rw [hv1, hdb']
        · right
          rw [hv1, hdb']
          exact markVideoMatched_idem vid db.videos
      · have : db'.nextMatchId = db.nextMatchId + 1 := by rw [hdb']
        omega
      · intro c' hc'
        rcases List.mem_cons.mp hc' with rfl | hmem
        · exact ⟨_, hfc⟩
        · exact hall c' hmem
      · rw [hacc]
        simp only [List.map_cons, hfc, Option.getD_some]
        simp

/-- When every campaign's pair already has a stored record, the
video-branch loop re-serves the stored records and changes nothing. -/
lemma videoFold_stable (gen : Video → Campaign → MatchResult) (vid : Nat) (video : Video) :
    ∀ (cs : List Campaign) (acc : List MatchDoc) (db : DB),
      (∀ c ∈ cs, ∃ m, firstMatch db.matchRecords vid c.id = some m) →
      cs.foldl (videoBranchStep gen vid video) (acc, db)
        = (acc ++ cs.map (fun c => (firstMatch db.matchRecords vid c.id).getD default), db) := by
  intro cs
  induction cs with
  | nil =>
    intro acc db _
    simp
  | cons c cs ih =>
    intro acc db hall
    obtain ⟨m, hm⟩ := hall c (List.mem_cons_self c cs)
    rw [List.foldl_cons, videoBranchStep_some gen vid video acc db c m hm,
      ih (acc ++ [m]) db (fun c' hc' => hall c' (List.mem_cons_of_mem c hc'))]
    simp only [List.map_cons, hm, Option.getD_some]
    simp

/-- C1: running the find-matches workflow twice for the same video is
idempotent — the second run (under any generation oracle) returns exactly
the same record list, with identical scores and reasoning, and leaves the
database unchanged: no MatchRecord is created for a pair the first run
already covered, so at most one record per (videoId, campaignId) pair ever
results. -/
theorem findMatches_idempotent (gen1 gen2 : Video → Campaign → MatchResult)
    (user : ReqUser) (vid : Nat) (db0 db1 : DB) (ms1 : List MatchDoc)
    (h : findMatchesHandler gen1 user (some vid) none db0 = (Except.ok ms1, db1)) :
    findMatchesHandler gen2 user (some vid) none db1 = (Except.ok ms1, db1) := by
  cases hv : runVideoBranch gen1 user vid [] db0 with
  | error e =>
    have hh : findMatchesHandler gen1 user (some vid) none db0 = (Except.error e, db0) := by
      simp only [findMatchesHandler, hv]
    rw [hh] at h
    exact absurd h (by simp)
  | ok p =>
    rcases p with ⟨ms, db1'⟩
    have hh : findMatchesHandler gen1 user (some vid) none db0 =
        (Except.ok (sortMatches ms), db1') := by
      simp only [findMatchesHandler, hv]
    rw [hh] at h
    rw [Prod.mk.injEq] at h
    have hms1 : sortMatches ms = ms1 := Except.ok.inj h.1
    have hdb : db1' = db1 := h.2
    subst hdb
    subst hms1
    cases hf : db0.videos.find? (fun v => v.id == vid) with
    | none =>
      simp only [runVideoBranch, hf] at hv
      exact absurd hv (by simp)
    | some video =>
      simp only [runVideoBranch, hf] at hv
      split at hv
      · exact absurd hv (by simp)
      case isFalse hcond =>
        have hfold := Except.ok.inj hv
        obtain ⟨⟨d, hd⟩, hcamp, hvids, hnext, hall, hacc⟩ :=
          videoFold_spec gen1 vid video db0.campaigns [] db0
        simp only [hfold] at hd hcamp hvids hall hacc
        have hcondf : (user.role == "creator" && !(video.creatorId == user.id)) = false := by
          revert hcond
          cases (user.role == "creator" && !(video.creatorId == user.id)) <;> simp
        -- the second run finds the (possibly status-marked) video
        have hfind2 : ∃ video2 : Video,
            db1'.videos.find? (fun v => v.id == vid) = some video2 ∧
            video2.creatorId = video.creatorId := by
          rcases hvids with hv1 | hv1
          · exact ⟨video, by rw [hv1, hf], rfl⟩
          · refine ⟨if video.id == vid then { video with status := "matched" } else video, ?_, ?_⟩
            · rw [hv1, find?_id_markVideoMatched, hf]
              rfl
            · by_cases hid : video.id == vid <;> simp [hid]
        obtain ⟨video2, hf2, hcr2⟩ := hfind2
        have hcondf2 : (user.role == "creator" && !(video2.creatorId == user.id)) = false := by
          rw [hcr2]
          exact hcondf
        have hall' : ∀ c ∈ db1'.campaigns, ∃ m, firstMatch db1'.matchRecords vid c.id = some m := by
          rw [hcamp]
          exact hall
        have hstable := videoFold_stable gen2 vid video2 db1'.campaigns [] db1'
          (fun c hc => hall' c hc)
        have hb2 : runVideoBranch gen2 user vid [] db1' = Except.ok (ms, db1') := by
          simp only [runVideoBranch, hf2, hcondf2, Bool.false_eq_true, if_false, hstable]
          rw [hcamp, hacc]
        simp only [findMatchesHandler, hb2]

/-- C1 witness: a second run over an already-scored pair returns the stored
record unchanged, even under a different generation oracle. -/
theorem findMatches_idempotent_witness :
    findMatchesHandler (fun _ _ => { score := 50, reasoning := "a" }) ⟨7, "creator"⟩
        (some 1) none
        { videos := [{ id := 1, title := "t", genre := "g", tone := "tn", creatorId := 7,
                       status := "matched" }],
          campaigns := [{ id := 2, productName := "p", category := "c", description := "d",
                          marketerId := 9 }],
          matchRecords := [{ id := 0, videoId := 1, campaignId := 2, matchScore := 61,
                             reasoning := "stored", status := "pending" }],
          nextMatchId := 1 } =
      (Except.ok (sortMatches [{ id := 0, videoId := 1, campaignId := 2, matchScore := 61,
                                 reasoning := "stored", status := "pending" }]),
       { videos := [{ id := 1, title := "t", genre := "g", tone := "tn", creatorId := 7,
                      status := "matched" }],
         campaigns := [{ id := 2, productName := "p", category := "c", description := "d",
                         marketerId := 9 }],
         matchRecords := [{ id := 0, videoId := 1, campaignId := 2, matchScore := 61,
                            reasoning := "stored", status := "pending" }],
         nextMatchId := 1 }) ∧
    findMatchesHandler (fun _ _ => { score := 99, reasoning := "b" }) ⟨7, "creator"⟩
        (some 1) none
        { videos := [{ id := 1, title := "t", genre := "g", tone := "tn", creatorId := 7,
                       status := "matched" }],
          campaigns := [{ id := 2, productName := "p", category := "c", description := "d",
                          marketerId := 9 }],
          matchRecords := [{ id := 0, videoId := 1, campaignId := 2, matchScore := 61,
                             reasoning := "stored", status := "pending" }],
          nextMatchId := 1 } =
      (Except.ok (sortMatches [{ id := 0, videoId := 1, campaignId := 2, matchScore := 61,
                                 reasoning := "stored", status := "pending" }]),
       { videos := [{ id := 1, title := "t", genre := "g", tone := "tn", creatorId := 7,
                      status := "matched" }],
         campaigns := [{ id := 2, productName := "p", category := "c", description := "d",
                         marketerId := 9 }],
         matchRecords := [{ id := 0, videoId := 1, campaignId := 2, matchScore := 61,
                            reasoning := "stored", status := "pending" }],
         nextMatchId := 1 }) := by
  refine ⟨rfl, ?_⟩
  exact findMatches_idempotent (fun _ _ => { score := 50, reasoning := "a" })
    (fun _ _ => { score := 99, reasoning := "b" }) ⟨7, "creator"⟩ 1
    { videos := [{ id := 1, title := "t", genre := "g", tone := "tn", creatorId := 7,
                   status := "matched" }],
      campaigns := [{ id := 2, productName := "p", category := "c", description := "d",
                      marketerId := 9 }],
      matchRecords := [{ id := 0, videoId := 1, campaignId := 2, matchScore := 61,
                         reasoning := "stored", status := "pending" }],
      nextMatchId := 1 }
    { videos := [{ id := 1, title := "t", genre := "g", tone := "tn", creatorId := 7,
                   status := "matched" }],
      campaigns := [{ id := 2, productName := "p", category := "c", description := "d",
                      marketerId := 9 }],
      matchRecords := [{ id := 0, videoId := 1, campaignId := 2, matchScore := 61,
                         reasoning := "stored", status := "pending" }],
      nextMatchId := 1 }
    (sortMatches [{ id := 0, videoId := 1, campaignId := 2, matchScore := 61,
                    reasoning := "stored", status := "pending" }])
    rfl

end AdVenture
